import Mathlib

/-!
# Verification of the gofunnel repository-hygiene checkers

Shallow embedding of the three Python scripts
`scripts/repo_lint.py`, `scripts/docs_index_check.py` and
`scripts/architecture_lint.py`, together with theorems settling the
specification claims about them.

The filesystem visible to a run is modelled by `FS`; each checker's
`main` becomes a function `FS → RunResult`, where `RunResult.crash`
records an abnormal termination of the interpreter caused by an
uncaught exception (in these scripts: `read_text` on a missing path,
on a directory, or on bytes that are not valid UTF-8).
-/

namespace GoFunnel

/-- The filesystem state a run inspects, with all paths expressed as
"/"-joined strings relative to the repository root `ROOT`.
`content p = some t` means the file decodes as UTF-8 to text `t`;
`content p = none` for an unreadable/undecodable file.
`rootEntries` are the names of the immediate children of `ROOT`
(what `ROOT.iterdir()` yields). -/
structure FS where
  isFile : String → Bool
  isDir : String → Bool
  content : String → Option String
  rootEntries : List String

/-- `Path.exists()`: the path exists as a file or as a directory. -/
def pathExists (fs : FS) (p : String) : Bool :=
  fs.isFile p || fs.isDir p

/-- `Path.read_text(encoding="utf-8")`: returns the decoded text, or
raises (modelled as `.error ()`) when the path is not a file or its
bytes do not decode as UTF-8. -/
def readText (fs : FS) (p : String) : Except Unit String :=
  if fs.isFile p then
    match fs.content p with
    | some t => Except.ok t
    | none => Except.error ()
  else Except.error ()

/-- The line-boundary characters recognised by Python's
`str.splitlines`. -/
def isLineBreakChar (c : Char) : Bool :=
  c = '\n' || c = '\r' || c = '\x0b' || c = '\x0c' ||
  c = '\x1c' || c = '\x1d' || c = '\x1e' || c = '\x85' ||
  c = '\u2028' || c = '\u2029'

/-- Worker for `splitlines`: `acc` holds the (reversed) characters of
the current line; `"\r\n"` counts as a single boundary. -/
def splitlinesAux : List Char → List Char → List String
  | [], acc => if acc.isEmpty then [] else [String.mk acc.reverse]
  | '\r' :: '\n' :: rest, acc => String.mk acc.reverse :: splitlinesAux rest []
  | c :: rest, acc =>
    if isLineBreakChar c then String.mk acc.reverse :: splitlinesAux rest []
    else splitlinesAux rest (c :: acc)

/-- Python's `str.splitlines()` (without `keepends`). -/
def splitlines (s : String) : List String :=
  splitlinesAux s.data []

/-- Python's `needle in hay` for strings: substring containment over
code points. `matchesAt` is prefix matching at one position. -/
def matchesAt : List Char → List Char → Bool
  | [], _ => true
  | _ :: _, [] => false
  | a :: as, b :: bs => a == b && matchesAt as bs

/-- Substring search over the character list of the haystack. -/
def hasSubstrAux (needle : List Char) : List Char → Bool
  | [] => matchesAt needle []
  | c :: rest => matchesAt needle (c :: rest) || hasSubstrAux needle rest

/-- Python's `needle in hay` on `str`. -/
def pySubstr (needle hay : String) : Bool :=
  hasSubstrAux needle.data hay.data

/-- `name.startswith(".")`: the name begins with the hidden marker. -/
def startsWithDot (n : String) : Bool :=
  match n.data with
  | [] => false
  | c :: _ => c == '.'

/-- Python's `<=` on strings, on the underlying code-point lists:
lexicographic comparison by code point. -/
def charListLe : List Char → List Char → Bool
  | [], _ => true
  | _ :: _, [] => false
  | a :: as, b :: bs =>
    if a.toNat < b.toNat then true
    else if b.toNat < a.toNat then false
    else charListLe as bs

/-- Python's `<=` on `str` (the order used by `sorted`). -/
def pyStrLe (a b : String) : Bool :=
  charListLe a.data b.data

/-! ## Static rule lists (module-level constants of the scripts) -/

/-- `repo_lint.MAX_AGENTS_LINES`. -/
def MAX_AGENTS_LINES : Nat := 200

/-- `repo_lint.REQUIRED_FILES`, relative to `ROOT`. -/
def REQUIRED_FILES : List String :=
  ["AGENTS.md", "ARCHITECTURE.md", "CONTRIBUTING.md", "SECURITY.md",
   "RELIABILITY.md", "QUALITY_SCORE.md", ".gitignore",
   ".github/PULL_REQUEST_TEMPLATE.md", ".github/workflows/ci.yml",
   ".github/ISSUE_TEMPLATE/feature.md", ".github/ISSUE_TEMPLATE/bug.md",
   ".github/ISSUE_TEMPLATE/tech_debt.md", "docs/00_index/README.md"]

/-- `repo_lint.REQUIRED_DOC_DIRS`. -/
def REQUIRED_DOC_DIRS : List String :=
  ["docs/00_index", "docs/01_product", "docs/02_architecture",
   "docs/03_execution_plans", "docs/04_runbooks", "docs/05_decisions",
   "docs/06_reference"]

/-- `repo_lint.DISALLOWED_TOP_LEVEL_DIRS` (a Python `set`). -/
def DISALLOWED_TOP_LEVEL_DIRS : List String :=
  ["tmp", "notes", "misc"]

/-- `repo_lint.EXPECTED_INDEX_REFERENCES`. -/
def EXPECTED_INDEX_REFERENCES : List String :=
  ["docs/01_product/", "docs/02_architecture/", "docs/03_execution_plans/",
   "docs/04_runbooks/", "docs/05_decisions/", "docs/06_reference/"]

/-- `docs_index_check.REQUIRED_LINKS`. -/
def REQUIRED_LINKS : List String :=
  ["docs/01_product/", "docs/02_architecture/", "docs/03_execution_plans/",
   "docs/04_runbooks/", "docs/05_decisions/", "docs/06_reference/"]

/-- `architecture_lint.REQUIRED_SECTIONS`. -/
def REQUIRED_SECTIONS : List String :=
  ["# Architecture Boundaries", "## Purpose", "## Planned Layers",
   "## Dependency Rules (initial)"]

/-! ## Run results -/

/-- The observable outcome of one run: `normal out code` is a clean
exit with the given stdout lines and exit status; `crash out` is an
abnormal termination by an uncaught exception after printing `out`
(the interpreter then exits with status 1). -/
inductive RunResult where
  | normal (out : List String) (code : Nat)
  | crash (out : List String)
deriving DecidableEq, Repr

/-- The process exit status of a run (an uncaught exception makes the
interpreter exit with status 1). -/
def exitCode : RunResult → Nat
  | RunResult.normal _ code => code
  | RunResult.crash _ => 1

/-- The lines printed to standard output during a run. -/
def outLines : RunResult → List String
  | RunResult.normal out _ => out
  | RunResult.crash out => out

/-- `repo_lint.fail(msg)` prints `f"ERROR: {msg}"` (then exits 1). -/
def failLine (msg : String) : String := "ERROR: " ++ msg

/-! ## repo_lint.main, split into its successive blocks -/

/-- `{p.name for p in ROOT.iterdir() if p.is_dir() and not
p.name.startswith(".")}` — the set of non-hidden top-level directory
names (`dedup` models set semantics). -/
def topLevelDirNames (fs : FS) : List String :=
  (fs.rootEntries.filter (fun n => fs.isDir n && !(startsWithDot n))).dedup

/-- `sorted(top_level_dirs & DISALLOWED_TOP_LEVEL_DIRS)`: the set
intersection, sorted ascending (Python sorts strings lexicographically
by code point, as does `≤` on `String`). -/
def offenders (fs : FS) : List String :=
  List.insertionSort (fun a b => pyStrLe a b = true)
    ((topLevelDirNames fs).filter (fun n => decide (n ∈ DISALLOWED_TOP_LEVEL_DIRS)))

/-- Final block of `repo_lint.main`: the disallowed-top-level-dirs
check, then the success print. -/
def repoLintDisallowedStage (fs : FS) : RunResult :=
  if (offenders fs).isEmpty then RunResult.normal ["repo_lint: OK"] 0
  else
    RunResult.normal
      [failLine ("Disallowed top-level directories found: " ++
        String.intercalate ", " (offenders fs))] 1

/-- `repo_lint.main` block 4: read the docs index and fail fast on the
first missing expected reference. -/
def repoLintIndexStage (fs : FS) : RunResult :=
  match readText fs "docs/00_index/README.md" with
  | Except.error _ => RunResult.crash []
  | Except.ok t =>
    match EXPECTED_INDEX_REFERENCES.find? (fun r => !(pySubstr r t)) with
    | some r => RunResult.normal [failLine ("docs index missing reference: " ++ r)] 1
    | none => repoLintDisallowedStage fs

/-- `repo_lint.main` block 3: the AGENTS.md line-count ceiling. -/
def repoLintAgentsStage (fs : FS) : RunResult :=
  match readText fs "AGENTS.md" with
  | Except.error _ => RunResult.crash []
  | Except.ok t =>
    if (splitlines t).length > MAX_AGENTS_LINES then
      RunResult.normal
        [failLine ("AGENTS.md too long: " ++ toString (splitlines t).length ++
          " lines (max " ++ toString MAX_AGENTS_LINES ++ ")")] 1
    else repoLintIndexStage fs

/-- `repo_lint.main` block 2: required doc directories, fail fast. -/
def repoLintDirsStage (fs : FS) : RunResult :=
  match REQUIRED_DOC_DIRS.find? (fun rel => !(fs.isDir rel)) with
  | some rel => RunResult.normal [failLine ("Missing required directory: " ++ rel)] 1
  | none => repoLintAgentsStage fs

/-- `repo_lint.main`: required files first (fail fast with
`path.exists()`), then the remaining blocks in source order. -/
def repoLint (fs : FS) : RunResult :=
  match REQUIRED_FILES.find? (fun p => !(pathExists fs p)) with
  | some p => RunResult.normal [failLine ("Missing required file: " ++ p)] 1
  | none => repoLintDirsStage fs

/-! ## docs_index_check.main -/

/-- `docs_index_check.main`. -/
def docsIndexCheck (fs : FS) : RunResult :=
  if !(pathExists fs "docs/00_index/README.md") then
    RunResult.normal ["ERROR: docs/00_index/README.md is missing"] 1
  else
    match readText fs "docs/00_index/README.md" with
    | Except.error _ => RunResult.crash []
    | Except.ok t =>
      match REQUIRED_LINKS.filter (fun l => !(pySubstr l t)) with
      | [] => RunResult.normal ["docs_index_check: OK"] 0
      | m :: ms =>
        RunResult.normal
          ("ERROR: docs index is missing required references:" ::
            (m :: ms).map (fun l => " - " ++ l)) 1

/-! ## architecture_lint.main -/

/-- `architecture_lint.main`. -/
def architectureLint (fs : FS) : RunResult :=
  if !(pathExists fs "docs/02_architecture/boundaries.md") then
    RunResult.normal ["ERROR: missing docs/02_architecture/boundaries.md"] 1
  else
    match readText fs "docs/02_architecture/boundaries.md" with
    | Except.error _ => RunResult.crash []
    | Except.ok t =>
      match REQUIRED_SECTIONS.find? (fun s => !(pySubstr s t)) with
      | some s =>
        RunResult.normal ["ERROR: boundaries file missing section: " ++ s] 1
      | none => RunResult.normal ["architecture_lint: OK (placeholder)"] 0

/-! ## Expectation satisfaction (spec §3 semantics)

The spec's Expectation variants, as decidable predicates on `FS`.
`ContainsAll` and `LineCountAtMost` require the target to be a
readable UTF-8 file (an unreadable file has no text, hence satisfies
neither). -/

/-- Spec `ContainsAll(p, required)`: the file at `p` is readable text
containing every required substring. -/
def containsAllSat (fs : FS) (p : String) (required : List String) : Bool :=
  match readText fs p with
  | Except.ok t => required.all (fun s => pySubstr s t)
  | Except.error _ => false

/-- Spec `LineCountAtMost(p, maxLines)`. -/
def lineCountAtMostSat (fs : FS) (p : String) (maxLines : Nat) : Bool :=
  match readText fs p with
  | Except.ok t => (splitlines t).length ≤ maxLines
  | Except.error _ => false

/-- Spec `NoDisallowedTopLevelDirs`. -/
def noDisallowedSat (fs : FS) : Bool :=
  (offenders fs).isEmpty

/-- All of repo_lint's Expectations, with the spec's strict reading of
`PathExists(p, File)` for the required files: the path must be a
file. -/
def repoLintSatStrict (fs : FS) : Bool :=
  REQUIRED_FILES.all fs.isFile &&
  REQUIRED_DOC_DIRS.all fs.isDir &&
  lineCountAtMostSat fs "AGENTS.md" MAX_AGENTS_LINES &&
  containsAllSat fs "docs/00_index/README.md" EXPECTED_INDEX_REFERENCES &&
  noDisallowedSat fs

/-- All of repo_lint's Expectations, with the required-file rules
weakened to bare existence (either kind), matching `path.exists()`. -/
def repoLintSatExistOnly (fs : FS) : Bool :=
  REQUIRED_FILES.all (pathExists fs) &&
  REQUIRED_DOC_DIRS.all fs.isDir &&
  lineCountAtMostSat fs "AGENTS.md" MAX_AGENTS_LINES &&
  containsAllSat fs "docs/00_index/README.md" EXPECTED_INDEX_REFERENCES &&
  noDisallowedSat fs

/-- All of docs_index_check's Expectations. -/
def docsIndexSat (fs : FS) : Bool :=
  containsAllSat fs "docs/00_index/README.md" REQUIRED_LINKS

/-- All of architecture_lint's Expectations. -/
def architectureSat (fs : FS) : Bool :=
  containsAllSat fs "docs/02_architecture/boundaries.md" REQUIRED_SECTIONS

/-! ## Concrete filesystem states used as witnesses and
counterexamples -/

/-- Build an `FS` from a list of readable files with their texts, a
list of existing-but-undecodable files, a list of directories, and the
top-level entry names. -/
def mkFS (files : List (String × String)) (broken : List String)
    (dirs : List String) (entries : List String) : FS where
  isFile p := (files.map Prod.fst).contains p || broken.contains p
  isDir p := dirs.contains p
  content p :=
    match files.find? (fun q => q.1 == p) with
    | some q => some q.2
    | none => none
  rootEntries := entries

/-- A docs index text containing all six required references. -/
def goodIndexText : String :=
  String.intercalate "\n" (REQUIRED_LINKS.map (fun l => "- " ++ l))

/-- A boundaries text containing all four required sections. -/
def goodBoundariesText : String :=
  String.intercalate "\n" REQUIRED_SECTIONS

/-- The 13 required files, with suitable contents. -/
def goodFiles : List (String × String) :=
  [("AGENTS.md", "agents"),
   ("docs/00_index/README.md", goodIndexText),
   ("docs/02_architecture/boundaries.md", goodBoundariesText)] ++
  (["ARCHITECTURE.md", "CONTRIBUTING.md", "SECURITY.md", "RELIABILITY.md",
    "QUALITY_SCORE.md", ".gitignore", ".github/PULL_REQUEST_TEMPLATE.md",
    ".github/workflows/ci.yml", ".github/ISSUE_TEMPLATE/feature.md",
    ".github/ISSUE_TEMPLATE/bug.md",
    ".github/ISSUE_TEMPLATE/tech_debt.md"].map (fun p => (p, "x")))

/-- A filesystem on which all three checkers pass. -/
def goodFS : FS :=
  mkFS goodFiles [] REQUIRED_DOC_DIRS ["docs", "scripts", ".github"]

/-- The empty filesystem: nothing exists. -/
def emptyFS : FS :=
  mkFS [] [] [] []

/-- `goodFS`, except `ARCHITECTURE.md` is a directory rather than a
file. -/
def archAsDirFS : FS :=
  mkFS (goodFiles.filter (fun q => q.1 ≠ "ARCHITECTURE.md")) []
    ("ARCHITECTURE.md" :: REQUIRED_DOC_DIRS) ["docs", "scripts", ".github"]

/-- Every text file of `goodFS` is present but undecodable. -/
def unreadableFS : FS :=
  mkFS [] (goodFiles.map Prod.fst) REQUIRED_DOC_DIRS []

/-- `goodFS` with `AGENTS.md` and `docs/00_index` removed: rules of two
different categories fail at once. -/
def twoFailFS : FS :=
  mkFS (goodFiles.filter (fun q => q.1 ≠ "AGENTS.md")) []
    (REQUIRED_DOC_DIRS.filter (fun d => d ≠ "docs/00_index"))
    ["docs", "scripts", ".github"]

/-- An `AGENTS.md` text of exactly 200 lines. -/
def agentsText200 : String :=
  String.mk (List.replicate 200 '\n')

/-- An `AGENTS.md` text of 201 lines. -/
def agentsText201 : String :=
  String.mk (List.replicate 201 '\n')

/-- A filesystem whose `AGENTS.md` has exactly 200 lines. -/
def agents200FS : FS :=
  mkFS [("AGENTS.md", agentsText200)] [] [] []

/-- A filesystem whose `AGENTS.md` has 201 lines. -/
def agents201FS : FS :=
  mkFS [("AGENTS.md", agentsText201)] [] [] []

/-- A boundaries file that exists, is readable, and contains none of
the four required sections. -/
def emptyBoundariesFS : FS :=
  mkFS [("docs/02_architecture/boundaries.md", "")] [] [] []

/-- A root with a hidden `.tmp` directory, a disallowed `tmp`
directory, a disallowed name `notes` carried by a plain file, a
disallowed `misc` directory, and an ordinary `src` directory. -/
def disallowedMixFS : FS :=
  mkFS [("notes", "just a file")] [] ["tmp", "misc", "src", ".tmp"]
    ["notes", "tmp", "misc", ".tmp", "src"]

/-- An index text with five of the six references, missing
`docs/06_reference/`. -/
def scenarioBIndexText : String :=
  String.intercalate "\n"
    ((REQUIRED_LINKS.filter (fun l => l ≠ "docs/06_reference/")).map
      (fun l => "- " ++ l))

/-- Scenario B of the spec: an index with five of the six references
(missing `docs/06_reference/`), next to an empty boundaries file. -/
def scenarioBFS : FS :=
  mkFS [("docs/00_index/README.md", scenarioBIndexText),
    ("docs/02_architecture/boundaries.md", "")] [] [] []

set_option maxRecDepth 4000

/-! ## Properties of the string comparator -/

/-- `charListLe` is total. -/
theorem charListLe_total :
    ∀ as bs : List Char, charListLe as bs = true ∨ charListLe bs as = true
  | [], _ => Or.inl rfl
  | _ :: _, [] => Or.inr rfl
  | a :: as, b :: bs => by
    by_cases h1 : a.toNat < b.toNat
    · exact Or.inl (by simp [charListLe, h1])
    · by_cases h2 : b.toNat < a.toNat
      · exact Or.inr (by simp [charListLe, h2])
      · rcases charListLe_total as bs with h | h
        · exact Or.inl (by simp [charListLe, h1, h2, h])
        · exact Or.inr (by simp [charListLe, h1, h2, h])

/-- `charListLe` is transitive. -/
theorem charListLe_trans :
    ∀ as bs cs : List Char, charListLe as bs = true → charListLe bs cs = true →
      charListLe as cs = true
  | [], _, _, _, _ => rfl
  | _ :: _, [], _, h1, _ => by simp [charListLe] at h1
  | _ :: _, _ :: _, [], _, h2 => by simp [charListLe] at h2
  | a :: as, b :: bs, c :: cs, h1, h2 => by
    simp only [charListLe] at h1 h2 ⊢
    by_cases hab : a.toNat < b.toNat
    · by_cases hbc : b.toNat < c.toNat
      · simp [Nat.lt_trans hab hbc]
      · by_cases hcb : c.toNat < b.toNat
        · simp [hbc, hcb] at h2
        · have hac : a.toNat < c.toNat := by omega
          simp [hac]
    · by_cases hba : b.toNat < a.toNat
      · simp [hab, hba] at h1
      · simp [hab, hba] at h1
        by_cases hbc : b.toNat < c.toNat
        · have hac : a.toNat < c.toNat := by omega
          simp [hac]
        · by_cases hcb : c.toNat < b.toNat
          · simp [hbc, hcb] at h2
          · simp [hbc, hcb] at h2
            have hac1 : ¬ a.toNat < c.toNat := by omega
            have hac2 : ¬ c.toNat < a.toNat := by omega
            simp [hac1, hac2]
            exact charListLe_trans as bs cs h1 h2

instance : IsTotal String (fun a b => pyStrLe a b = true) :=
  ⟨fun a b => charListLe_total a.data b.data⟩

instance : IsTrans String (fun a b => pyStrLe a b = true) :=
  ⟨fun a b c => charListLe_trans a.data b.data c.data⟩

/-! ## Characterisation of the offender set -/

/-- Membership in the non-hidden top-level directory-name set. -/
theorem mem_topLevelDirNames {fs : FS} {n : String} :
    n ∈ topLevelDirNames fs ↔
      n ∈ fs.rootEntries ∧ fs.isDir n = true ∧ startsWithDot n = false := by
  unfold topLevelDirNames
  rw [List.mem_dedup, List.mem_filter]
  simp [Bool.and_eq_true, Bool.not_eq_true']

/-- Membership in the offender list. -/
theorem mem_offenders {fs : FS} {n : String} :
    n ∈ offenders fs ↔
      n ∈ topLevelDirNames fs ∧ n ∈ DISALLOWED_TOP_LEVEL_DIRS := by
  unfold offenders
  rw [List.mem_insertionSort, List.mem_filter]
  simp

/-- The offender list is sorted by the Python string order. -/
theorem offenders_sorted (fs : FS) :
    List.Sorted (fun a b => pyStrLe a b = true) (offenders fs) :=
  List.sorted_insertionSort _ _

/-! ## Fail-fast loops: find? against all -/

/-- A fail-fast loop finds nothing iff every element passes. -/
theorem find?_bang_eq_none {α} {l : List α} {p : α → Bool} (h : l.all p = true) :
    l.find? (fun x => !(p x)) = none := by
  rw [List.find?_eq_none]
  intro x hx
  simp [List.all_eq_true.mp h x hx]

/-- If the fail-fast loop stops at some element, not all pass. -/
theorem all_eq_false_of_find?_bang {α} {l : List α} {p : α → Bool} {a : α}
    (h : l.find? (fun x => !(p x)) = some a) : l.all p = false := by
  rw [List.all_eq_false]
  refine ⟨a, List.mem_of_find?_eq_some h, ?_⟩
  have := List.find?_some h
  simp only [Bool.not_eq_true'] at this
  simp [this]

/-! ## Stage-skipping lemmas: each repo_lint block is transparent when
its rule category is satisfied -/

theorem repoLint_eq_dirsStage {fs : FS}
    (h : REQUIRED_FILES.all (pathExists fs) = true) :
    repoLint fs = repoLintDirsStage fs := by
  unfold repoLint
  rw [find?_bang_eq_none h]

theorem dirsStage_eq_agentsStage {fs : FS}
    (h : REQUIRED_DOC_DIRS.all fs.isDir = true) :
    repoLintDirsStage fs = repoLintAgentsStage fs := by
  unfold repoLintDirsStage
  rw [find?_bang_eq_none h]

theorem agentsStage_eq_indexStage {fs : FS} {t : String}
    (ht : readText fs "AGENTS.md" = Except.ok t)
    (hc : (splitlines t).length ≤ MAX_AGENTS_LINES) :
    repoLintAgentsStage fs = repoLintIndexStage fs := by
  unfold repoLintAgentsStage
  rw [ht]
  dsimp only
  rw [if_neg (by omega)]

theorem indexStage_eq_disallowedStage {fs : FS} {u : String}
    (hu : readText fs "docs/00_index/README.md" = Except.ok u)
    (h : EXPECTED_INDEX_REFERENCES.all (fun r => pySubstr r u) = true) :
    repoLintIndexStage fs = repoLintDisallowedStage fs := by
  unfold repoLintIndexStage
  rw [hu]
  dsimp only
  rw [find?_bang_eq_none h]

/-! ## Exit-code characterisation of each checker -/

theorem exitCode_disallowedStage (fs : FS) :
    exitCode (repoLintDisallowedStage fs) =
      if noDisallowedSat fs = true then 0 else 1 := by
  unfold repoLintDisallowedStage noDisallowedSat
  by_cases h : (offenders fs).isEmpty = true
  · simp [h, exitCode]
  · simp [h, exitCode]

theorem exitCode_indexStage (fs : FS) :
    exitCode (repoLintIndexStage fs) =
      if (containsAllSat fs "docs/00_index/README.md" EXPECTED_INDEX_REFERENCES &&
          noDisallowedSat fs) = true then 0 else 1 := by
  unfold repoLintIndexStage containsAllSat
  cases hr : readText fs "docs/00_index/README.md" with
  | error e => simp [exitCode]
  | ok t =>
    dsimp only
    cases hf : EXPECTED_INDEX_REFERENCES.find? (fun r => !(pySubstr r t)) with
    | some r =>
      have hall := all_eq_false_of_find?_bang hf
      simp [exitCode, hall]
    | none =>
      have hall : EXPECTED_INDEX_REFERENCES.all (fun s => pySubstr s t) = true := by
        rw [List.all_eq_true]
        intro x hx
        have := List.find?_eq_none.mp hf x hx
        simpa using this
      simp [hall, exitCode_disallowedStage fs]

theorem exitCode_agentsStage (fs : FS) :
    exitCode (repoLintAgentsStage fs) =
      if (lineCountAtMostSat fs "AGENTS.md" MAX_AGENTS_LINES &&
          (containsAllSat fs "docs/00_index/README.md" EXPECTED_INDEX_REFERENCES &&
           noDisallowedSat fs)) = true then 0 else 1 := by
  unfold repoLintAgentsStage lineCountAtMostSat
  cases hr : readText fs "AGENTS.md" with
  | error e => simp [exitCode]
  | ok t =>
    by_cases hc : (splitlines t).length > MAX_AGENTS_LINES
    · have hd : decide ((splitlines t).length ≤ MAX_AGENTS_LINES) = false := by
        simp only [decide_eq_false_iff_not]
        omega
      simp [hc, hd, exitCode]
    · have hd : decide ((splitlines t).length ≤ MAX_AGENTS_LINES) = true := by
        simp only [decide_eq_true_eq]
        omega
      simp [hc, hd, exitCode_indexStage fs]

theorem exitCode_dirsStage (fs : FS) :
    exitCode (repoLintDirsStage fs) =
      if (REQUIRED_DOC_DIRS.all fs.isDir &&
          (lineCountAtMostSat fs "AGENTS.md" MAX_AGENTS_LINES &&
           (containsAllSat fs "docs/00_index/README.md" EXPECTED_INDEX_REFERENCES &&
            noDisallowedSat fs))) = true then 0 else 1 := by
  unfold repoLintDirsStage
  cases hf : REQUIRED_DOC_DIRS.find? (fun rel => !(fs.isDir rel)) with
  | some rel =>
    have hall := all_eq_false_of_find?_bang hf
    simp [exitCode, hall]
  | none =>
    have hall : REQUIRED_DOC_DIRS.all fs.isDir = true := by
      rw [List.all_eq_true]
      intro x hx
      have := List.find?_eq_none.mp hf x hx
      simpa using this
    simp [hall, exitCode_agentsStage fs]

theorem exitCode_repoLint (fs : FS) :
    exitCode (repoLint fs) = if repoLintSatExistOnly fs = true then 0 else 1 := by
  unfold repoLint repoLintSatExistOnly
  cases hf : REQUIRED_FILES.find? (fun p => !(pathExists fs p)) with
  | some p =>
    have hall := all_eq_false_of_find?_bang hf
    simp [exitCode, hall]
  | none =>
    have hall : REQUIRED_FILES.all (pathExists fs) = true := by
      rw [List.all_eq_true]
      intro x hx
      have := List.find?_eq_none.mp hf x hx
      simpa using this
    simp [hall, exitCode_dirsStage fs, and_assoc]

theorem exitCode_docsIndexCheck (fs : FS) :
    exitCode (docsIndexCheck fs) = if docsIndexSat fs = true then 0 else 1 := by
  unfold docsIndexCheck docsIndexSat containsAllSat
  by_cases hp : pathExists fs "docs/00_index/README.md" = true
  · cases hr : readText fs "docs/00_index/README.md" with
    | error e => simp [hp, exitCode]
    | ok t =>
      dsimp only
      cases hm : REQUIRED_LINKS.filter (fun l => !(pySubstr l t)) with
      | nil =>
        have hall : REQUIRED_LINKS.all (fun s => pySubstr s t) = true := by
          rw [List.all_eq_true]
          intro x hx
          have := List.filter_eq_nil_iff.mp hm x hx
          simpa using this
        simp [hp, exitCode, hall]
      | cons m ms =>
        have hmem : m ∈ REQUIRED_LINKS.filter (fun l => !(pySubstr l t)) := by
          rw [hm]; exact List.mem_cons_self m ms
        have hall : REQUIRED_LINKS.all (fun s => pySubstr s t) = false := by
          rw [List.all_eq_false]
          rcases List.mem_filter.mp hmem with ⟨hm1, hm2⟩
          refine ⟨m, hm1, ?_⟩
          simp only [Bool.not_eq_true'] at hm2
          simp [hm2]
        simp [hp, hm, exitCode, hall]
  · have hpf : pathExists fs "docs/00_index/README.md" = false :=
      Bool.not_eq_true _ ▸ Bool.of_not_eq_true hp
    have hif : fs.isFile "docs/00_index/README.md" = false :=
      (Bool.or_eq_false_iff.mp hpf).1
    have hr : readText fs "docs/00_index/README.md" = Except.error () := by
      unfold readText
      simp [hif]
    simp [hpf, hr, exitCode]

theorem exitCode_architectureLint (fs : FS) :
    exitCode (architectureLint fs) =
      if architectureSat fs = true then 0 else 1 := by
  unfold architectureLint architectureSat containsAllSat
  by_cases hp : pathExists fs "docs/02_architecture/boundaries.md" = true
  · cases hr : readText fs "docs/02_architecture/boundaries.md" with
    | error e => simp [hp, exitCode]
    | ok t =>
      dsimp only
      cases hf : REQUIRED_SECTIONS.find? (fun s => !(pySubstr s t)) with
      | some s =>
        have hall := all_eq_false_of_find?_bang hf
        simp [hp, exitCode, hall]
      | none =>
        have hall : REQUIRED_SECTIONS.all (fun s => pySubstr s t) = true := by
          rw [List.all_eq_true]
          intro x hx
          have := List.find?_eq_none.mp hf x hx
          simpa using this
        simp [hp, exitCode, hall]
  · have hpf : pathExists fs "docs/02_architecture/boundaries.md" = false :=
      Bool.not_eq_true _ ▸ Bool.of_not_eq_true hp
    have hif : fs.isFile "docs/02_architecture/boundaries.md" = false :=
      (Bool.or_eq_false_iff.mp hpf).1
    have hr : readText fs "docs/02_architecture/boundaries.md" = Except.error () := by
      unfold readText
      simp [hif]
    simp [hpf, hr, exitCode]

/-! ## Reading helpers -/

theorem isFile_of_readText_ok {fs : FS} {p t : String}
    (h : readText fs p = Except.ok t) : fs.isFile p = true := by
  by_contra hc
  unfold readText at h
  rw [Bool.not_eq_true] at hc
  rw [if_neg (by simp [hc])] at h
  exact Except.noConfusion h

theorem pathExists_of_isFile {fs : FS} {p : String}
    (h : fs.isFile p = true) : pathExists fs p = true := by
  simp [pathExists, h]

theorem readText_undecodable {fs : FS} {p : String}
    (h1 : fs.isFile p = true) (h2 : fs.content p = none) :
    readText fs p = Except.error () := by
  unfold readText
  simp [h1, h2]

/-! ## Success paths: all Expectations satisfied gives the single OK
line -/

theorem all_pathExists_of_all_isFile {fs : FS}
    (h : REQUIRED_FILES.all fs.isFile = true) :
    REQUIRED_FILES.all (pathExists fs) = true := by
  rw [List.all_eq_true] at h ⊢
  intro p hp
  simp [pathExists, h p hp]

theorem repoLint_success {fs : FS} (h : repoLintSatStrict fs = true) :
    repoLint fs = RunResult.normal ["repo_lint: OK"] 0 := by
  unfold repoLintSatStrict at h
  simp only [Bool.and_eq_true] at h
  obtain ⟨⟨⟨⟨h1, h2⟩, h3⟩, h4⟩, h5⟩ := h
  rw [repoLint_eq_dirsStage (all_pathExists_of_all_isFile h1)]
  rw [dirsStage_eq_agentsStage h2]
  unfold lineCountAtMostSat at h3
  cases ht : readText fs "AGENTS.md" with
  | error e => rw [ht] at h3; simp at h3
  | ok t =>
    rw [ht] at h3
    dsimp only at h3
    have hc : (splitlines t).length ≤ MAX_AGENTS_LINES := of_decide_eq_true h3
    rw [agentsStage_eq_indexStage ht hc]
    unfold containsAllSat at h4
    cases hu : readText fs "docs/00_index/README.md" with
    | error e => rw [hu] at h4; simp at h4
    | ok u =>
      rw [hu] at h4
      dsimp only at h4
      rw [indexStage_eq_disallowedStage hu h4]
      unfold repoLintDisallowedStage
      unfold noDisallowedSat at h5
      rw [if_pos h5]

theorem docsIndexCheck_success {fs : FS} (h : docsIndexSat fs = true) :
    docsIndexCheck fs = RunResult.normal ["docs_index_check: OK"] 0 := by
  unfold docsIndexSat containsAllSat at h
  cases ht : readText fs "docs/00_index/README.md" with
  | error e => rw [ht] at h; simp at h
  | ok t =>
    rw [ht] at h
    dsimp only at h
    have hp := pathExists_of_isFile (isFile_of_readText_ok ht)
    have hm : REQUIRED_LINKS.filter (fun l => !(pySubstr l t)) = [] := by
      rw [List.filter_eq_nil_iff]
      intro a ha
      simp [List.all_eq_true.mp h a ha]
    unfold docsIndexCheck
    rw [hp]
    simp only [Bool.not_true, Bool.false_eq_true, if_false]
    rw [ht]
    dsimp only
    rw [hm]

theorem architectureLint_success {fs : FS} (h : architectureSat fs = true) :
    architectureLint fs = RunResult.normal ["architecture_lint: OK (placeholder)"] 0 := by
  unfold architectureSat containsAllSat at h
  cases ht : readText fs "docs/02_architecture/boundaries.md" with
  | error e => rw [ht] at h; simp at h
  | ok t =>
    rw [ht] at h
    dsimp only at h
    have hp := pathExists_of_isFile (isFile_of_readText_ok ht)
    unfold architectureLint
    rw [hp]
    simp only [Bool.not_true, Bool.false_eq_true, if_false]
    rw [ht]
    dsimp only
    rw [find?_bang_eq_none h]

/-! ## Claim theorems -/

/-- C1 (counterexample): with the spec's strict reading of
`PathExists(p, File)`, "exit 0 iff every Expectation satisfied" fails:
on a filesystem where `ARCHITECTURE.md` is a directory instead of a
file, repo_lint exits 0 (its required-file loop uses `path.exists()`)
although the required-file Expectation is unsatisfied. -/
theorem repoLint_exit_zero_strict_unsat_cex :
    ¬ (exitCode (repoLint archAsDirFS) = 0 ↔
        repoLintSatStrict archAsDirFS = true) := by
  decide

/-- C1 (amended): every run exits 0 iff all its Expectations are
satisfied and 1 otherwise (an uncaught exception also ends the process
with status 1), where repo_lint's required-file Expectations are read
as bare existence of either kind, matching `path.exists()`. -/
theorem checkers_exit_code_iff_expectations : ∀ fs : FS,
    exitCode (repoLint fs) = (if repoLintSatExistOnly fs = true then 0 else 1) ∧
    exitCode (docsIndexCheck fs) = (if docsIndexSat fs = true then 0 else 1) ∧
    exitCode (architectureLint fs) = (if architectureSat fs = true then 0 else 1) :=
  fun fs =>
    ⟨exitCode_repoLint fs, exitCode_docsIndexCheck fs, exitCode_architectureLint fs⟩

/-- C2: for every checker, if every Expectation is satisfied the run
prints exactly one line — a success line containing the checker's name
and "OK" — and no failure lines. -/
theorem checkers_success_single_ok_line : ∀ fs : FS,
    (repoLintSatStrict fs = true →
      repoLint fs = RunResult.normal ["repo_lint: OK"] 0) ∧
    (docsIndexSat fs = true →
      docsIndexCheck fs = RunResult.normal ["docs_index_check: OK"] 0) ∧
    (architectureSat fs = true →
      architectureLint fs = RunResult.normal ["architecture_lint: OK (placeholder)"] 0) ∧
    (pySubstr "repo_lint" "repo_lint: OK" = true ∧
     pySubstr "OK" "repo_lint: OK" = true) ∧
    (pySubstr "docs_index_check" "docs_index_check: OK" = true ∧
     pySubstr "OK" "docs_index_check: OK" = true) ∧
    (pySubstr "architecture_lint" "architecture_lint: OK (placeholder)" = true ∧
     pySubstr "OK" "architecture_lint: OK (placeholder)" = true) :=
  fun _ =>
    ⟨repoLint_success, docsIndexCheck_success, architectureLint_success,
     by decide, by decide, by decide⟩

/-- C2 witness: on `goodFS` all Expectations hold and each checker
prints its single OK line. -/
theorem checkers_success_single_ok_line_witness :
    repoLint goodFS = RunResult.normal ["repo_lint: OK"] 0 ∧
    docsIndexCheck goodFS = RunResult.normal ["docs_index_check: OK"] 0 ∧
    architectureLint goodFS = RunResult.normal ["architecture_lint: OK (placeholder)"] 0 :=
  ⟨(checkers_success_single_ok_line goodFS).1 (by decide),
   (checkers_success_single_ok_line goodFS).2.1 (by decide),
   (checkers_success_single_ok_line goodFS).2.2.1 (by decide)⟩

/-- C3: repo_lint evaluates its rule categories in the fixed order
(a) required files, (b) required directories, (c) line count,
(d) index references, (e) disallowed top-level directories; whichever
category fails first is the one reported. -/
theorem repoLint_category_order : ∀ fs : FS,
    (∀ p, REQUIRED_FILES.find? (fun q => !(pathExists fs q)) = some p →
      repoLint fs = RunResult.normal [failLine ("Missing required file: " ++ p)] 1) ∧
    (REQUIRED_FILES.all (pathExists fs) = true →
      ∀ d, REQUIRED_DOC_DIRS.find? (fun q => !(fs.isDir q)) = some d →
        repoLint fs = RunResult.normal [failLine ("Missing required directory: " ++ d)] 1) ∧
    (REQUIRED_FILES.all (pathExists fs) = true →
      REQUIRED_DOC_DIRS.all fs.isDir = true →
      ∀ t, readText fs "AGENTS.md" = Except.ok t →
        (splitlines t).length > MAX_AGENTS_LINES →
        repoLint fs = RunResult.normal
          [failLine ("AGENTS.md too long: " ++ toString (splitlines t).length ++
            " lines (max " ++ toString MAX_AGENTS_LINES ++ ")")] 1) ∧
    (REQUIRED_FILES.all (pathExists fs) = true →
      REQUIRED_DOC_DIRS.all fs.isDir = true →
      ∀ t, readText fs "AGENTS.md" = Except.ok t →
        (splitlines t).length ≤ MAX_AGENTS_LINES →
        ∀ u, readText fs "docs/00_index/README.md" = Except.ok u →
          ∀ r, EXPECTED_INDEX_REFERENCES.find? (fun q => !(pySubstr q u)) = some r →
            repoLint fs = RunResult.normal
              [failLine ("docs index missing reference: " ++ r)] 1) ∧
    (REQUIRED_FILES.all (pathExists fs) = true →
      REQUIRED_DOC_DIRS.all fs.isDir = true →
      ∀ t, readText fs "AGENTS.md" = Except.ok t →
        (splitlines t).length ≤ MAX_AGENTS_LINES →
        ∀ u, readText fs "docs/00_index/README.md" = Except.ok u →
          EXPECTED_INDEX_REFERENCES.all (fun q => pySubstr q u) = true →
          offenders fs ≠ [] →
          repoLint fs = RunResult.normal
            [failLine ("Disallowed top-level directories found: " ++
              String.intercalate ", " (offenders fs))] 1) := by
  intro fs
  refine ⟨?_, ?_, ?_, ?_, ?_⟩
  · intro p hp
    unfold repoLint
    rw [hp]
  · intro h1 d hd
    rw [repoLint_eq_dirsStage h1]
    unfold repoLintDirsStage
    rw [hd]
  · intro h1 h2 t ht hc
    rw [repoLint_eq_dirsStage h1, dirsStage_eq_agentsStage h2]
    unfold repoLintAgentsStage
    rw [ht]
    dsimp only
    rw [if_pos hc]
  · intro h1 h2 t ht hc u hu r hr
    rw [repoLint_eq_dirsStage h1, dirsStage_eq_agentsStage h2,
      agentsStage_eq_indexStage ht hc]
    unfold repoLintIndexStage
    rw [hu]
    dsimp only
    rw [hr]
  · intro h1 h2 t ht hc u hu hall hoff
    rw [repoLint_eq_dirsStage h1, dirsStage_eq_agentsStage h2,
      agentsStage_eq_indexStage ht hc, indexStage_eq_disallowedStage hu hall]
    unfold repoLintDisallowedStage
    rw [if_neg (fun hc2 => hoff (List.isEmpty_eq_true.mp hc2))]

/-- C3 witness: on `twoFailFS` both a required file (`AGENTS.md`) and
a required directory (`docs/00_index`) are missing, and the reported
failure is the one from the earlier category. -/
theorem repoLint_category_order_witness :
    REQUIRED_FILES.find? (fun q => !(pathExists twoFailFS q)) = some "AGENTS.md" ∧
    REQUIRED_DOC_DIRS.find? (fun q => !(twoFailFS.isDir q)) = some "docs/00_index" ∧
    repoLint twoFailFS =
      RunResult.normal [failLine ("Missing required file: " ++ "AGENTS.md")] 1 :=
  ⟨by decide, by decide,
   (repoLint_category_order twoFailFS).1 "AGENTS.md" (by decide)⟩

/-- C4: the AGENTS.md line-count rule passes at exactly 200 lines
(the run moves on to the next category) and fails at more than 200
lines with a message naming the actual count and the maximum. -/
theorem agents_line_limit_boundary : ∀ (fs : FS) (t : String),
    readText fs "AGENTS.md" = Except.ok t →
    ((splitlines t).length = MAX_AGENTS_LINES →
      repoLintAgentsStage fs = repoLintIndexStage fs) ∧
    ((splitlines t).length > MAX_AGENTS_LINES →
      repoLintAgentsStage fs = RunResult.normal
        [failLine ("AGENTS.md too long: " ++ toString (splitlines t).length ++
          " lines (max " ++ toString MAX_AGENTS_LINES ++ ")")] 1) := by
  intro fs t ht
  constructor
  · intro h200
    exact agentsStage_eq_indexStage ht (by omega)
  · intro hgt
    unfold repoLintAgentsStage
    rw [ht]
    dsimp only
    rw [if_pos hgt]

/-- C4 witness: a 200-line file passes the rule; a 201-line file
produces the too-long error naming 201 and 200. -/
theorem agents_line_limit_boundary_witness :
    (splitlines agentsText200).length = 200 ∧
    repoLintAgentsStage agents200FS = repoLintIndexStage agents200FS ∧
    (splitlines agentsText201).length = 201 ∧
    repoLintAgentsStage agents201FS = RunResult.normal
      [failLine ("AGENTS.md too long: " ++ toString (splitlines agentsText201).length ++
        " lines (max " ++ toString MAX_AGENTS_LINES ++ ")")] 1 :=
  ⟨by decide,
   (agents_line_limit_boundary agents200FS agentsText200 (by rfl)).1 (by decide),
   by decide,
   (agents_line_limit_boundary agents201FS agentsText201 (by rfl)).2 (by decide)⟩

/-- C5: whenever the docs index file does not exist,
docs_index_check's whole output is the single missing-index error line
and it exits 1. -/
theorem docs_index_missing_single_error : ∀ fs : FS,
    pathExists fs "docs/00_index/README.md" = false →
    docsIndexCheck fs =
      RunResult.normal ["ERROR: docs/00_index/README.md is missing"] 1 := by
  intro fs h
  unfold docsIndexCheck
  rw [h]
  rfl

/-- C5 witness: on the empty filesystem. -/
theorem docs_index_missing_single_error_witness :
    pathExists emptyFS "docs/00_index/README.md" = false ∧
    docsIndexCheck emptyFS =
      RunResult.normal ["ERROR: docs/00_index/README.md is missing"] 1 :=
  ⟨by decide, docs_index_missing_single_error emptyFS (by decide)⟩

/-- C6 (counterexample): architecture_lint does not aggregate. On a
boundaries file that is empty text, all four required sections are
missing, yet the complete output is one line naming only the first
missing section; the missing section "## Purpose" appears nowhere in
the output. -/
theorem architectureLint_not_aggregate_cex :
    architectureLint emptyBoundariesFS = RunResult.normal
      ["ERROR: boundaries file missing section: # Architecture Boundaries"] 1 ∧
    pySubstr "## Purpose" "" = false ∧
    pySubstr "## Purpose"
      "ERROR: boundaries file missing section: # Architecture Boundaries" = false :=
  ⟨by decide, by decide, by decide⟩

/-- C6 (amended): docs_index_check aggregates: it evaluates all six
required links, prints a header followed by one bullet per missing
link, and exits once — in particular one missing link yields a header
plus exactly one bullet. architecture_lint, by contrast, is fail-fast:
it reports only the first missing section. -/
theorem docs_aggregate_arch_failfast : ∀ fs : FS,
    (∀ t m ms, readText fs "docs/00_index/README.md" = Except.ok t →
      REQUIRED_LINKS.filter (fun l => !(pySubstr l t)) = m :: ms →
      docsIndexCheck fs = RunResult.normal
        ("ERROR: docs index is missing required references:" ::
          (m :: ms).map (fun l => " - " ++ l)) 1) ∧
    (∀ u s, readText fs "docs/02_architecture/boundaries.md" = Except.ok u →
      REQUIRED_SECTIONS.find? (fun q => !(pySubstr q u)) = some s →
      architectureLint fs = RunResult.normal
        ["ERROR: boundaries file missing section: " ++ s] 1) := by
  intro fs
  constructor
  · intro t m ms ht hm
    have hp := pathExists_of_isFile (isFile_of_readText_ok ht)
    unfold docsIndexCheck
    rw [hp]
    simp only [Bool.not_true, Bool.false_eq_true, if_false]
    rw [ht]
    dsimp only
    rw [hm]
  · intro u s hu hf
    have hp := pathExists_of_isFile (isFile_of_readText_ok hu)
    unfold architectureLint
    rw [hp]
    simp only [Bool.not_true, Bool.false_eq_true, if_false]
    rw [hu]
    dsimp only
    rw [hf]

/-- C6 witness (the spec's Scenario B): an index with five of six
references yields a header plus exactly one bullet naming
`docs/06_reference/`; an empty boundaries file yields the single
first-missing-section line. -/
theorem docs_aggregate_arch_failfast_witness :
    docsIndexCheck scenarioBFS = RunResult.normal
      ["ERROR: docs index is missing required references:",
       " - docs/06_reference/"] 1 ∧
    architectureLint scenarioBFS = RunResult.normal
      ["ERROR: boundaries file missing section: # Architecture Boundaries"] 1 :=
  ⟨(docs_aggregate_arch_failfast scenarioBFS).1 scenarioBIndexText
      "docs/06_reference/" [] (by rfl) (by decide),
   (docs_aggregate_arch_failfast scenarioBFS).2 "" "# Architecture Boundaries"
      (by rfl) (by decide)⟩

/-- C7 (counterexample): docs_index_check and architecture_lint do not
convert an unreadable target file into a reported Expectation failure:
on a filesystem whose target files exist but do not decode, both runs
terminate abnormally (uncaught exception) with nothing printed. -/
theorem unreadable_crash_not_reported_cex :
    docsIndexCheck unreadableFS = RunResult.crash [] ∧
    architectureLint unreadableFS = RunResult.crash [] :=
  ⟨by decide, by decide⟩

/-- C7 (amended): in all three checkers an existing but undecodable
target file escalates to an abnormal, uncaught termination of the run;
none of them folds it into the exit status as a reported failure. -/
theorem unreadable_file_crashes_all : ∀ fs : FS,
    (fs.isFile "docs/00_index/README.md" = true →
      fs.content "docs/00_index/README.md" = none →
      docsIndexCheck fs = RunResult.crash []) ∧
    (fs.isFile "docs/02_architecture/boundaries.md" = true →
      fs.content "docs/02_architecture/boundaries.md" = none →
      architectureLint fs = RunResult.crash []) ∧
    (REQUIRED_FILES.all (pathExists fs) = true →
      REQUIRED_DOC_DIRS.all fs.isDir = true →
      fs.isFile "AGENTS.md" = true →
      fs.content "AGENTS.md" = none →
      repoLint fs = RunResult.crash []) := by
  intro fs
  refine ⟨?_, ?_, ?_⟩
  · intro h1 h2
    have hp := pathExists_of_isFile h1
    unfold docsIndexCheck
    rw [hp]
    simp only [Bool.not_true, Bool.false_eq_true, if_false]
    rw [readText_undecodable h1 h2]
  · intro h1 h2
    have hp := pathExists_of_isFile h1
    unfold architectureLint
    rw [hp]
    simp only [Bool.not_true, Bool.false_eq_true, if_false]
    rw [readText_undecodable h1 h2]
  · intro hf hd h1 h2
    rw [repoLint_eq_dirsStage hf, dirsStage_eq_agentsStage hd]
    unfold repoLintAgentsStage
    rw [readText_undecodable h1 h2]

/-- C7 witness: on `unreadableFS` every governance file exists but
none decodes; all three checkers crash. -/
theorem unreadable_file_crashes_all_witness :
    docsIndexCheck unreadableFS = RunResult.crash [] ∧
    architectureLint unreadableFS = RunResult.crash [] ∧
    repoLint unreadableFS = RunResult.crash [] :=
  ⟨(unreadable_file_crashes_all unreadableFS).1 (by decide) (by decide),
   (unreadable_file_crashes_all unreadableFS).2.1 (by decide) (by decide),
   (unreadable_file_crashes_all unreadableFS).2.2 (by decide) (by decide)
     (by decide) (by decide)⟩

/-- C8: a top-level entry whose name begins with "." is skipped: it
never enters the non-hidden directory-name set and is never an
offender, whatever the rest of the filesystem looks like. -/
theorem hidden_dirs_never_flagged : ∀ (fs : FS) (n : String),
    startsWithDot n = true →
    n ∉ topLevelDirNames fs ∧ n ∉ offenders fs := by
  intro fs n h
  constructor
  · intro hc
    have h2 := (mem_topLevelDirNames.mp hc).2.2
    rw [h] at h2
    exact Bool.noConfusion h2
  · intro hc
    have h1 := (mem_offenders.mp hc).1
    have h2 := (mem_topLevelDirNames.mp h1).2.2
    rw [h] at h2
    exact Bool.noConfusion h2

/-- C8 witness: `.tmp` is a hidden directory at the root of
`disallowedMixFS`; it is not flagged even though its name without the
dot is in the disallow set. -/
theorem hidden_dirs_never_flagged_witness :
    startsWithDot ".tmp" = true ∧
    disallowedMixFS.isDir ".tmp" = true ∧
    ".tmp" ∉ topLevelDirNames disallowedMixFS ∧
    ".tmp" ∉ offenders disallowedMixFS :=
  ⟨by decide, by decide,
   (hidden_dirs_never_flagged disallowedMixFS ".tmp" (by decide)).1,
   (hidden_dirs_never_flagged disallowedMixFS ".tmp" (by decide)).2⟩

/-- C9: every checker is a pure function of the filesystem state: two
runs against an identical filesystem produce identical output lines
and identical exit codes. -/
theorem checkers_deterministic : ∀ fs1 fs2 : FS, fs1 = fs2 →
    repoLint fs1 = repoLint fs2 ∧
    docsIndexCheck fs1 = docsIndexCheck fs2 ∧
    architectureLint fs1 = architectureLint fs2 ∧
    outLines (repoLint fs1) = outLines (repoLint fs2) ∧
    exitCode (repoLint fs1) = exitCode (repoLint fs2) ∧
    exitCode (docsIndexCheck fs1) = exitCode (docsIndexCheck fs2) ∧
    exitCode (architectureLint fs1) = exitCode (architectureLint fs2) := by
  intro fs1 fs2 h
  subst h
  exact ⟨rfl, rfl, rfl, rfl, rfl, rfl, rfl⟩

/-- C9 witness: two runs against `goodFS`. -/
theorem checkers_deterministic_witness :
    repoLint goodFS = repoLint goodFS ∧
    docsIndexCheck goodFS = docsIndexCheck goodFS ∧
    architectureLint goodFS = architectureLint goodFS ∧
    outLines (repoLint goodFS) = outLines (repoLint goodFS) ∧
    exitCode (repoLint goodFS) = exitCode (repoLint goodFS) ∧
    exitCode (docsIndexCheck goodFS) = exitCode (docsIndexCheck goodFS) ∧
    exitCode (architectureLint goodFS) = exitCode (architectureLint goodFS) :=
  checkers_deterministic goodFS goodFS rfl

/-- C10: the disallowed-top-level-dirs rule considers only immediate
children of the root that are directories (a plain file is never an
offender), and when offenders exist it reports all of them in one
ERROR line, sorted ascending by the Python string order and joined by
", ". -/
theorem disallowed_report_sorted_single_line : ∀ fs : FS,
    (∀ n, n ∈ offenders fs →
      fs.isDir n = true ∧ n ∈ fs.rootEntries ∧ n ∈ DISALLOWED_TOP_LEVEL_DIRS) ∧
    List.Sorted (fun a b => pyStrLe a b = true) (offenders fs) ∧
    (offenders fs ≠ [] →
      repoLintDisallowedStage fs = RunResult.normal
        [failLine ("Disallowed top-level directories found: " ++
          String.intercalate ", " (offenders fs))] 1) := by
  intro fs
  refine ⟨?_, offenders_sorted fs, ?_⟩
  · intro n hn
    obtain ⟨htop, hd⟩ := mem_offenders.mp hn
    obtain ⟨he, hdir, _⟩ := mem_topLevelDirNames.mp htop
    exact ⟨hdir, he, hd⟩
  · intro hne
    unfold repoLintDisallowedStage
    rw [if_neg (fun hc => hne (List.isEmpty_eq_true.mp hc))]

/-- C10 witness: on `disallowedMixFS` the offenders are exactly
`misc` and `tmp` (sorted), the plain file `notes` is not flagged, and
the stage prints the single joined ERROR line. -/
theorem disallowed_report_sorted_single_line_witness :
    offenders disallowedMixFS = ["misc", "tmp"] ∧
    disallowedMixFS.isDir "notes" = false ∧
    repoLintDisallowedStage disallowedMixFS = RunResult.normal
      [failLine ("Disallowed top-level directories found: " ++
        String.intercalate ", " (offenders disallowedMixFS))] 1 :=
  ⟨by decide, by decide,
   (disallowed_report_sorted_single_line disallowedMixFS).2.2 (by decide)⟩

end GoFunnel
